import Mathlib

/-!
Shallow embedding of the resilient-connection core of the repository:
`mcp_sdk/connection.py` (class `Connection`) and `mcp_sdk/client.py`
(class `MCPClient`), together with the exception taxonomy of
`mcp_sdk/exceptions.py`.

Modelling choices:
* The underlying websocket library is an external collaborator; its
  behaviour is an oracle (`Transport`) giving the outcome of the n-th
  underlying `websockets.connect`, `websocket.send` and `websocket.recv`
  call.  Outcome `false` (resp. `none` for recv) models the call raising
  `websockets.exceptions.WebSocketException`.
* A `Sys` state carries the `Connection` object's attributes plus
  instrumentation counters: how many underlying transport calls of each
  kind have been performed, how many times `Connection.disconnect` was
  invoked, and the total time spent in `asyncio.sleep`.
* The unbounded `while` loop of `Connection._reconnect` is modelled with
  fuel (number of loop iterations); `none` means the loop is still
  running after `fuel` iterations.
* Exception propagation is modelled with `Except`: `Err.connectionError`
  is the SDK's `ConnectionError`, `Err.webSocketException` the transport's
  native `websockets.exceptions.WebSocketException`.  The text of the
  underlying library exception is not modelled, so the connect-failure
  message carries only the endpoint, as in
  `f"Failed to connect to {self.uri}: {e}"` with `{e}` elided.
-/

namespace McpSdk

/-- Exception kinds, from `mcp_sdk/exceptions.py` (`ConnectionError`) and
the websocket library's native error (`WebSocketException`). -/
inductive Err where
  | connectionError (msg : String)
  | webSocketException
deriving DecidableEq, Repr

/-- The attributes of a `Connection` object
(`connection.py`, `Connection.__init__`): endpoint `uri`, fixed
`reconnect_delay`, optional socket handle `websocket` (handles are
numbered by the underlying connect call that produced them), and the
`_is_connected` flag. -/
structure Connection where
  uri : String
  reconnect_delay : Nat
  websocket : Option Nat
  is_connected : Bool
deriving DecidableEq, Repr

/-- Oracle for the external websocket library: outcome of the n-th
underlying `websockets.connect`, `websocket.send` and `websocket.recv`
call (counting from 0).  `false` / `none` means the call raises
`WebSocketException`; `some msg` is a successfully received message. -/
structure Transport where
  connectOk : Nat → Bool
  sendOk : Nat → Bool
  recvRes : Nat → Option String

/-- Execution state: the `Connection` attributes plus instrumentation:
counts of underlying transport connects/sends/recvs/closes performed,
count of `Connection.disconnect` invocations, and total time slept. -/
structure Sys where
  conn : Connection
  connectCalls : Nat
  sendCalls : Nat
  recvCalls : Nat
  closeCalls : Nat
  disconnectCalls : Nat
  slept : Nat
deriving DecidableEq, Repr

/-- State of a freshly constructed `Connection(uri, reconnect_delay)`:
no socket, not connected, no transport activity yet. -/
def Sys.init (uri : String) (reconnect_delay : Nat) : Sys :=
  { conn := { uri := uri, reconnect_delay := reconnect_delay,
              websocket := none, is_connected := false }
    connectCalls := 0, sendCalls := 0, recvCalls := 0
    closeCalls := 0, disconnectCalls := 0, slept := 0 }

/-- The guard shared by `Connection.send` and `Connection.recv`:
`if not self._is_connected or not self.websocket`. -/
def Connection.notConnectedGuard (c : Connection) : Bool :=
  !c.is_connected || c.websocket.isNone

/-- `Connection.connect`: if `self._is_connected`, return immediately;
otherwise try `websockets.connect(self.uri)` — on success store the new
socket and set the flag, on `WebSocketException` raise `ConnectionError`
(the socket attribute is left unchanged, the flag stays false). -/
def Connection.connectRun (tr : Transport) (s : Sys) : Except Err Unit × Sys :=
  if s.conn.is_connected then (.ok (), s)
  else
    let n := s.connectCalls
    let s1 := { s with connectCalls := n + 1 }
    if tr.connectOk n then
      (.ok (),
        { s1 with
          conn := { s1.conn with websocket := some n, is_connected := true } })
    else
      (.error (.connectionError ("Failed to connect to " ++ s.conn.uri)), s1)

/-- `Connection.disconnect`: if `not self._is_connected or not
self.websocket`, return; otherwise `await self.websocket.close()` and set
the flag to false.  Note that the code never resets `self.websocket` to
`None`.  The invocation counter is bumped unconditionally. -/
def Connection.disconnectRun (s : Sys) : Sys :=
  let s0 := { s with disconnectCalls := s.disconnectCalls + 1 }
  if !s0.conn.is_connected || s0.conn.websocket.isNone then s0
  else
    { s0 with closeCalls := s0.closeCalls + 1,
              conn := { s0.conn with is_connected := false } }

/-- `await asyncio.sleep(self.reconnect_delay)` inside `_reconnect`. -/
def Sys.sleepDelay (s : Sys) : Sys :=
  { s with slept := s.slept + s.conn.reconnect_delay }

/-- `Connection._reconnect`: `while not self._is_connected:` run
`disconnect()`, sleep `reconnect_delay`, `connect()`, swallowing any
`ConnectionError` from the body (`except ConnectionError: pass`).
`fuel` bounds the number of loop iterations; `none` means the loop has
not terminated within `fuel` iterations. -/
def Connection.reconnectAux (tr : Transport) (fuel : Nat) (s : Sys) : Option Sys :=
  match fuel with
  | 0 => if s.conn.is_connected then some s else none
  | fuel + 1 =>
    if s.conn.is_connected then some s
    else
      Connection.reconnectAux tr fuel
        (Connection.connectRun tr (Connection.disconnectRun s).sleepDelay).2

/-- `Connection.send(message)`: fail fast with
`ConnectionError("Not connected.")` when the guard fires; otherwise try
the underlying `websocket.send` — on `WebSocketException` set
`_is_connected = False`, run `_reconnect()` to completion, then retry the
underlying send exactly once, any failure of the retry propagating as the
raw `WebSocketException`. -/
def Connection.sendRun (tr : Transport) (fuel : Nat) (message : String)
    (s : Sys) : Option (Except Err Unit × Sys) :=
  if s.conn.notConnectedGuard then
    some (.error (.connectionError "Not connected."), s)
  else
    let n := s.sendCalls
    let s1 := { s with sendCalls := n + 1 }
    if tr.sendOk n then some (.ok (), s1)
    else
      let s2 := { s1 with conn := { s1.conn with is_connected := false } }
      match Connection.reconnectAux tr fuel s2 with
      | none => none
      | some s3 =>
        let m := s3.sendCalls
        let s4 := { s3 with sendCalls := m + 1 }
        if tr.sendOk m then some (.ok (), s4)
        else some (.error .webSocketException, s4)

/-- `Connection.recv()`: symmetric to `send`, returning the received
message on success. -/
def Connection.recvRun (tr : Transport) (fuel : Nat) (s : Sys) :
    Option (Except Err String × Sys) :=
  if s.conn.notConnectedGuard then
    some (.error (.connectionError "Not connected."), s)
  else
    let n := s.recvCalls
    let s1 := { s with recvCalls := n + 1 }
    match tr.recvRes n with
    | some msg => some (.ok msg, s1)
    | none =>
      let s2 := { s1 with conn := { s1.conn with is_connected := false } }
      match Connection.reconnectAux tr fuel s2 with
      | none => none
      | some s3 =>
        let m := s3.recvCalls
        let s4 := { s3 with recvCalls := m + 1 }
        match tr.recvRes m with
        | some msg => some (.ok msg, s4)
        | none => some (.error .webSocketException, s4)

/-- `MCPClient` scoped usage (`async with client:`): `__aenter__` awaits
`Connection.connect` (if it raises, the scope is never entered and
`__aexit__` does not run); the body then runs, producing either a normal
result or a propagating exception; `__aexit__` awaits
`Connection.disconnect` and, returning `None`, never suppresses the
body's exception. -/
def MCPClient.withScope {α : Type} (tr : Transport)
    (body : Sys → Option (Except Err α × Sys)) (s : Sys) :
    Option (Except Err α × Sys) :=
  match Connection.connectRun tr s with
  | (.error e, s1) => some (.error e, s1)
  | (.ok _, s1) =>
    match body s1 with
    | none => none
    | some (r, s2) => some (r, Connection.disconnectRun s2)

/-- Externally invocable `Connection` operations, for reachability. -/
inductive Op where
  | connectOp
  | disconnectOp
  | sendOp (message : String)
  | recvOp

/-- One external operation on a `Connection`; the `Except` result is
discarded, only the state evolution is kept.  `none` means the operation
diverged inside the reconnect loop. -/
def Sys.stepOp (tr : Transport) (fuel : Nat) (o : Op) (s : Sys) : Option Sys :=
  match o with
  | .connectOp => some (Connection.connectRun tr s).2
  | .disconnectOp => some (Connection.disconnectRun s)
  | .sendOp m => (Connection.sendRun tr fuel m s).map Prod.snd
  | .recvOp => (Connection.recvRun tr fuel s).map Prod.snd

/-- Run a sequence of external operations from a state. -/
def Sys.runOps (tr : Transport) (fuel : Nat) : List Op → Sys → Option Sys
  | [], s => some s
  | o :: os, s =>
    match Sys.stepOp tr fuel o s with
    | none => none
    | some s' => Sys.runOps tr fuel os s'

/-- The state-machine invariant of §3 of the design: the connected flag
implies a socket object is present. -/
def SocketInv (s : Sys) : Prop :=
  s.conn.is_connected = true → s.conn.websocket.isSome = true

/-- An all-successful transport oracle, for concrete runs. -/
def trAll : Transport :=
  { connectOk := fun _ => true, sendOk := fun _ => true,
    recvRes := fun _ => some "World" }

/-- Oracle where every underlying send/recv fails but connects succeed:
the post-reconnect retry of a send/recv fails too. -/
def trRetryFail : Transport :=
  { connectOk := fun _ => true, sendOk := fun _ => false,
    recvRes := fun _ => none }

/-- Oracle where exactly the first underlying send fails and everything
else succeeds (the scenario of §8 of the design, item 4). -/
def trSendOnceFail : Transport :=
  { connectOk := fun _ => true, sendOk := fun n => n != 0,
    recvRes := fun _ => some "World" }

/-! ## Helper lemmas -/

lemma notConnectedGuard_eq_false (c : Connection) (hc : c.is_connected = true)
    (w : Nat) (hw : c.websocket = some w) :
    Connection.notConnectedGuard c = false := by
  simp [Connection.notConnectedGuard, hc, hw]

lemma disconnectRun_calls (s : Sys) :
    (Connection.disconnectRun s).disconnectCalls = s.disconnectCalls + 1 := by
  unfold Connection.disconnectRun
  simp only []
  split <;> rfl

lemma reconnectAux_of_connected (tr : Transport) (fuel : Nat) (s : Sys)
    (hc : s.conn.is_connected = true) :
    Connection.reconnectAux tr fuel s = some s := by
  cases fuel <;> simp [Connection.reconnectAux, hc]

/-- If the reconnect loop's internal `connect()` succeeds on its first
attempt, the loop runs exactly one iteration: one (no-op) `disconnect()`
invocation, one wait of `reconnect_delay`, one underlying connect. -/
lemma reconnectAux_one (tr : Transport) (fuel : Nat) (s : Sys)
    (hc : s.conn.is_connected = false)
    (hk : tr.connectOk s.connectCalls = true) :
    Connection.reconnectAux tr (fuel + 1) s =
      some { s with
        conn :=
          { s.conn with websocket := some s.connectCalls, is_connected := true }
        connectCalls := s.connectCalls + 1
        disconnectCalls := s.disconnectCalls + 1
        slept := s.slept + s.conn.reconnect_delay } := by
  simp [Connection.reconnectAux, Connection.disconnectRun, Sys.sleepDelay,
    Connection.connectRun, hc, hk, reconnectAux_of_connected]

/-- Whenever `_reconnect` returns, the flag is `true`. -/
lemma reconnectAux_some_connected (tr : Transport) :
    ∀ (fuel : Nat) (s s' : Sys),
      Connection.reconnectAux tr fuel s = some s' →
      s'.conn.is_connected = true := by
  intro fuel
  induction fuel with
  | zero =>
    intro s s' h
    by_cases hc : s.conn.is_connected = true
    · simp [Connection.reconnectAux, hc] at h
      exact h ▸ hc
    · simp [Connection.reconnectAux, hc] at h
  | succ n ih =>
    intro s s' h
    by_cases hc : s.conn.is_connected = true
    · simp [Connection.reconnectAux, hc] at h
      exact h ▸ hc
    · rw [Connection.reconnectAux, if_neg hc] at h
      exact ih _ _ h

/-- `_reconnect` never performs an underlying send or recv: the send and
recv counters are unchanged when it returns. -/
lemma reconnectAux_counts (tr : Transport) :
    ∀ (fuel : Nat) (s s' : Sys),
      Connection.reconnectAux tr fuel s = some s' →
      s'.sendCalls = s.sendCalls ∧ s'.recvCalls = s.recvCalls := by
  intro fuel
  induction fuel with
  | zero =>
    intro s s' h
    by_cases hc : s.conn.is_connected = true
    · simp [Connection.reconnectAux, hc] at h
      simp [← h]
    · simp [Connection.reconnectAux, hc] at h
  | succ n ih =>
    intro s s' h
    by_cases hc : s.conn.is_connected = true
    · simp [Connection.reconnectAux, hc] at h
      simp [← h]
    · rw [Connection.reconnectAux, if_neg hc] at h
      have := ih _ _ h
      simp [Connection.connectRun, Connection.disconnectRun, Sys.sleepDelay] at this
      split at this <;> split at this <;> simp_all

lemma socketInv_connectRun (tr : Transport) (s : Sys) (h : SocketInv s) :
    SocketInv (Connection.connectRun tr s).2 := by
  unfold Connection.connectRun
  by_cases hc : s.conn.is_connected = true
  · simpa [hc] using h
  · by_cases hk : tr.connectOk s.connectCalls = true
    · intro _
      simp [hc, hk]
    · intro hcontra
      simp [hc, hk] at hcontra

lemma socketInv_disconnectRun (s : Sys) (h : SocketInv s) :
    SocketInv (Connection.disconnectRun s) := by
  unfold Connection.disconnectRun
  by_cases hg : (!s.conn.is_connected || s.conn.websocket.isNone) = true
  · simpa [hg] using h
  · intro hcontra
    simp [hg] at hcontra

lemma socketInv_reconnectAux (tr : Transport) :
    ∀ (fuel : Nat) (s s' : Sys), SocketInv s →
      Connection.reconnectAux tr fuel s = some s' → SocketInv s' := by
  intro fuel
  induction fuel with
  | zero =>
    intro s s' hs h
    by_cases hc : s.conn.is_connected = true
    · simp [Connection.reconnectAux, hc] at h
      exact h ▸ hs
    · simp [Connection.reconnectAux, hc] at h
  | succ n ih =>
    intro s s' hs h
    by_cases hc : s.conn.is_connected = true
    · simp [Connection.reconnectAux, hc] at h
      exact h ▸ hs
    · rw [Connection.reconnectAux, if_neg hc] at h
      refine ih _ _ ?_ h
      exact socketInv_connectRun tr _
        (by simpa [Sys.sleepDelay, SocketInv]
          using socketInv_disconnectRun s hs)

lemma socketInv_sendRun (tr : Transport) (fuel : Nat) (m : String)
    (s s' : Sys) (r : Except Err Unit) (hs : SocketInv s)
    (h : Connection.sendRun tr fuel m s = some (r, s')) : SocketInv s' := by
  unfold Connection.sendRun at h
  by_cases hg : s.conn.notConnectedGuard = true
  · rw [if_pos hg] at h
    injection h with h
    injection h with ha hb
    subst hb
    exact hs
  · rw [if_neg hg] at h
    by_cases h1 : tr.sendOk s.sendCalls = true
    · rw [if_pos h1] at h
      injection h with h
      injection h with ha hb
      subst hb
      exact fun hc => hs hc
    · rw [if_neg h1] at h
      simp only [] at h
      split at h
      · simp at h
      · rename_i s3 hrec
        have hs3 : SocketInv s3 :=
          socketInv_reconnectAux tr fuel _ s3 (by intro hx; simp at hx) hrec
        split at h
        all_goals
          injection h with h
          injection h with ha hb
          subst hb
          exact fun hc => hs3 hc

lemma socketInv_recvRun (tr : Transport) (fuel : Nat)
    (s s' : Sys) (r : Except Err String) (hs : SocketInv s)
    (h : Connection.recvRun tr fuel s = some (r, s')) : SocketInv s' := by
  unfold Connection.recvRun at h
  by_cases hg : s.conn.notConnectedGuard = true
  · rw [if_pos hg] at h
    injection h with h
    injection h with ha hb
    subst hb
    exact hs
  · rw [if_neg hg] at h
    simp only [] at h
    split at h
    · injection h with h
      injection h with ha hb
      subst hb
      exact fun hc => hs hc
    · split at h
      · simp at h
      · rename_i s3 hrec
        have hs3 : SocketInv s3 :=
          socketInv_reconnectAux tr fuel _ s3 (by intro hx; simp at hx) hrec
        split at h
        all_goals
          injection h with h
          injection h with ha hb
          subst hb
          exact fun hc => hs3 hc

lemma socketInv_stepOp (tr : Transport) (fuel : Nat) (o : Op)
    (s s' : Sys) (hs : SocketInv s)
    (h : Sys.stepOp tr fuel o s = some s') : SocketInv s' := by
  cases o with
  | connectOp =>
    simp [Sys.stepOp] at h
    exact h ▸ socketInv_connectRun tr s hs
  | disconnectOp =>
    simp [Sys.stepOp] at h
    exact h ▸ socketInv_disconnectRun s hs
  | sendOp m =>
    simp only [Sys.stepOp] at h
    cases hsend : Connection.sendRun tr fuel m s with
    | none => rw [hsend] at h; simp at h
    | some p =>
      rw [hsend] at h
      simp at h
      exact h ▸ socketInv_sendRun tr fuel m s p.2 p.1 hs (by rw [hsend])
  | recvOp =>
    simp only [Sys.stepOp] at h
    cases hrecv : Connection.recvRun tr fuel s with
    | none => rw [hrecv] at h; simp at h
    | some p =>
      rw [hrecv] at h
      simp at h
      exact h ▸ socketInv_recvRun tr fuel s p.2 p.1 hs (by rw [hrecv])

lemma socketInv_runOps (tr : Transport) (fuel : Nat) :
    ∀ (ops : List Op) (s s' : Sys), SocketInv s →
      Sys.runOps tr fuel ops s = some s' → SocketInv s' := by
  intro ops
  induction ops with
  | nil =>
    intro s s' hs h
    simp [Sys.runOps] at h
    exact h ▸ hs
  | cons o os ih =>
    intro s s' hs h
    rw [Sys.runOps] at h
    split at h
    · exact absurd h (by simp)
    · rename_i s1 hstep
      exact ih _ _ (socketInv_stepOp tr fuel o s s1 hs hstep) h

/-- When the guard does not fire, `send` performs at least one underlying
transport send attempt. -/
lemma sendRun_attempts (tr : Transport) (fuel : Nat) (m : String)
    (s s' : Sys) (r : Except Err Unit)
    (hg : s.conn.notConnectedGuard = false)
    (h : Connection.sendRun tr fuel m s = some (r, s')) :
    s.sendCalls < s'.sendCalls := by
  unfold Connection.sendRun at h
  rw [if_neg (by simp [hg])] at h
  by_cases h1 : tr.sendOk s.sendCalls = true
  · rw [if_pos h1] at h
    injection h with h
    injection h with ha hb
    subst hb
    exact Nat.lt_succ_self _
  · rw [if_neg h1] at h
    simp only [] at h
    split at h
    · simp at h
    · rename_i s3 hrec
      have hcnt := (reconnectAux_counts tr fuel _ s3 hrec).1
      simp at hcnt
      split at h
      all_goals
        injection h with h
        injection h with ha hb
        subst hb
        show s.sendCalls < s3.sendCalls + 1
        omega

/-- When the guard does not fire, `recv` performs at least one underlying
transport recv attempt. -/
lemma recvRun_attempts (tr : Transport) (fuel : Nat)
    (s s' : Sys) (r : Except Err String)
    (hg : s.conn.notConnectedGuard = false)
    (h : Connection.recvRun tr fuel s = some (r, s')) :
    s.recvCalls < s'.recvCalls := by
  unfold Connection.recvRun at h
  rw [if_neg (by simp [hg])] at h
  simp only [] at h
  split at h
  · injection h with h
    injection h with ha hb
    subst hb
    exact Nat.lt_succ_self _
  · split at h
    · simp at h
    · rename_i s3 hrec
      have hcnt := (reconnectAux_counts tr fuel _ s3 hrec).2
      simp at hcnt
      split at h
      all_goals
        injection h with h
        injection h with ha hb
        subst hb
        show s.recvCalls < s3.recvCalls + 1
        omega

/-- Exact outcome of `send` when the first underlying send fails, the
reconnect loop terminates in state `s3`, and the single retry fails too:
the raw transport error propagates. -/
lemma sendRun_retryFail (tr : Transport) (fuel : Nat) (m : String)
    (s s3 : Sys) (w : Nat)
    (hc : s.conn.is_connected = true) (hw : s.conn.websocket = some w)
    (hs1 : tr.sendOk s.sendCalls = false)
    (hrec : Connection.reconnectAux tr fuel
      { s with conn := { s.conn with is_connected := false },
               sendCalls := s.sendCalls + 1 } = some s3)
    (hs2 : tr.sendOk s3.sendCalls = false) :
    Connection.sendRun tr fuel m s =
      some (.error .webSocketException,
            { s3 with sendCalls := s3.sendCalls + 1 }) := by
  unfold Connection.sendRun
  rw [if_neg (by simp [notConnectedGuard_eq_false s.conn hc w hw])]
  simp only []
  rw [if_neg (by simp [hs1])]
  rw [hrec]
  simp only []
  rw [if_neg (by simp [hs2])]

/-- Exact outcome of `recv` in the same failing-retry situation. -/
lemma recvRun_retryFail (tr : Transport) (fuel : Nat)
    (s s3 : Sys) (w : Nat)
    (hc : s.conn.is_connected = true) (hw : s.conn.websocket = some w)
    (hr1 : tr.recvRes s.recvCalls = none)
    (hrec : Connection.reconnectAux tr fuel
      { s with conn := { s.conn with is_connected := false },
               recvCalls := s.recvCalls + 1 } = some s3)
    (hr2 : tr.recvRes s3.recvCalls = none) :
    Connection.recvRun tr fuel s =
      some (.error .webSocketException,
            { s3 with recvCalls := s3.recvCalls + 1 }) := by
  unfold Connection.recvRun
  rw [if_neg (by simp [notConnectedGuard_eq_false s.conn hc w hw])]
  simp only []
  rw [hr1]
  simp only []
  rw [hrec]
  simp only []
  rw [hr2]

/-! ## Claims -/

/-- Claim C1: for every connected `Connection`, if the transport write in
`send(payload)` fails and the single retry performed after the reconnect
procedure also fails, the error that propagates to the caller is the
underlying transport error type (`WebSocketException`), not
`ConnectionError`; the same holds for `recv`. -/
theorem retry_failure_propagates_transport_error
    (tr : Transport) (fuel : Nat) (m : String) (s s3 s3' : Sys) (w : Nat)
    (hc : s.conn.is_connected = true)
    (hw : s.conn.websocket = some w)
    (hs1 : tr.sendOk s.sendCalls = false)
    (hrecS : Connection.reconnectAux tr fuel
      { s with conn := { s.conn with is_connected := false },
               sendCalls := s.sendCalls + 1 } = some s3)
    (hs2 : tr.sendOk s3.sendCalls = false)
    (hr1 : tr.recvRes s.recvCalls = none)
    (hrecR : Connection.reconnectAux tr fuel
      { s with conn := { s.conn with is_connected := false },
               recvCalls := s.recvCalls + 1 } = some s3')
    (hr2 : tr.recvRes s3'.recvCalls = none) :
    Connection.sendRun tr fuel m s =
      some (.error .webSocketException,
            { s3 with sendCalls := s3.sendCalls + 1 }) ∧
    Connection.recvRun tr fuel s =
      some (.error .webSocketException,
            { s3' with recvCalls := s3'.recvCalls + 1 }) :=
  ⟨sendRun_retryFail tr fuel m s s3 w hc hw hs1 hrecS hs2,
   recvRun_retryFail tr fuel s s3' w hc hw hr1 hrecR hr2⟩

/-- Concrete instance of C1: both failing retries surface the raw
transport error. -/
theorem retry_failure_propagates_transport_error_witness :
    Connection.sendRun trRetryFail 1 "Hello"
        (⟨⟨"ws://h", 5, some 0, true⟩, 1, 0, 0, 0, 0, 0⟩ : Sys) =
      some (.error .webSocketException,
            (⟨⟨"ws://h", 5, some 1, true⟩, 2, 2, 0, 0, 1, 5⟩ : Sys)) ∧
    Connection.recvRun trRetryFail 1
        (⟨⟨"ws://h", 5, some 0, true⟩, 1, 0, 0, 0, 0, 0⟩ : Sys) =
      some (.error .webSocketException,
            (⟨⟨"ws://h", 5, some 1, true⟩, 2, 0, 2, 0, 1, 5⟩ : Sys)) :=
  retry_failure_propagates_transport_error trRetryFail 1 "Hello"
    (⟨⟨"ws://h", 5, some 0, true⟩, 1, 0, 0, 0, 0, 0⟩ : Sys)
    (⟨⟨"ws://h", 5, some 1, true⟩, 2, 1, 0, 0, 1, 5⟩ : Sys)
    (⟨⟨"ws://h", 5, some 1, true⟩, 2, 0, 1, 0, 1, 5⟩ : Sys)
    0 rfl rfl rfl rfl rfl rfl rfl rfl

/-- Claim C2: for every connected `Connection`, a single transport send
failure triggers exactly one reconnect sequence and exactly one
additional send attempt; when the reconnect's internal `connect()`
succeeds on its first attempt and the retried send succeeds, the state
shows one extra underlying connect, two underlying sends in total for
this call, one `disconnect()` safety-net invocation, one
`reconnect_delay` wait, and no error is surfaced. -/
theorem send_failure_single_reconnect_single_retry
    (tr : Transport) (fuel : Nat) (m : String) (s : Sys) (w : Nat)
    (hc : s.conn.is_connected = true)
    (hw : s.conn.websocket = some w)
    (h1 : tr.sendOk s.sendCalls = false)
    (hk : tr.connectOk s.connectCalls = true)
    (h2 : tr.sendOk (s.sendCalls + 1) = true) :
    Connection.sendRun tr (fuel + 1) m s =
      some (.ok (),
        { s with
          conn :=
            { s.conn with websocket := some s.connectCalls, is_connected := true }
          connectCalls := s.connectCalls + 1
          sendCalls := s.sendCalls + 2
          disconnectCalls := s.disconnectCalls + 1
          slept := s.slept + s.conn.reconnect_delay }) := by
  unfold Connection.sendRun
  rw [if_neg (by simp [notConnectedGuard_eq_false s.conn hc w hw])]
  simp only []
  rw [if_neg (by simp [h1])]
  have hrec := reconnectAux_one tr fuel
    { s with conn := { s.conn with is_connected := false },
             sendCalls := s.sendCalls + 1 } rfl hk
  rw [hrec]
  simp only []
  rw [if_pos h2]

/-- Concrete instance of C2 (scenario 4 of §8): totals are 2 underlying
connects and 2 underlying sends, with no surfaced error. -/
theorem send_failure_single_reconnect_single_retry_witness :
    Connection.sendRun trSendOnceFail 2 "Hello"
        (⟨⟨"ws://h", 5, some 0, true⟩, 1, 0, 0, 0, 0, 0⟩ : Sys) =
      some (.ok (), (⟨⟨"ws://h", 5, some 1, true⟩, 2, 2, 0, 0, 1, 5⟩ : Sys)) ∧
    (⟨⟨"ws://h", 5, some 1, true⟩, 2, 2, 0, 0, 1, 5⟩ : Sys).connectCalls = 2 ∧
    (⟨⟨"ws://h", 5, some 1, true⟩, 2, 2, 0, 0, 1, 5⟩ : Sys).sendCalls = 2 :=
  ⟨send_failure_single_reconnect_single_retry trSendOnceFail 1 "Hello"
     (⟨⟨"ws://h", 5, some 0, true⟩, 1, 0, 0, 0, 0, 0⟩ : Sys) 0
     rfl rfl rfl rfl rfl,
   rfl, rfl⟩

/-- Claim C3: the reconnect procedure repeats `disconnect()`, a wait of
exactly `reconnect_delay`, then `connect()`, in that order, while the
connected flag is false, discarding (never surfacing) the outcome of
`connect()`; and whenever it returns, the connected flag is true. -/
theorem reconnect_loop_shape_and_postcondition
    (tr : Transport) (fuel : Nat) (s : Sys) :
    (s.conn.is_connected = false →
      Connection.reconnectAux tr (fuel + 1) s =
        Connection.reconnectAux tr fuel
          (Connection.connectRun tr
            (Connection.disconnectRun s).sleepDelay).2) ∧
    (∀ s', Connection.reconnectAux tr fuel s = some s' →
      s'.conn.is_connected = true) := by
  constructor
  · intro hc
    conv_lhs => rw [Connection.reconnectAux]
    rw [if_neg (by simp [hc])]
  · exact fun s' h => reconnectAux_some_connected tr fuel s s' h

/-- Concrete instance of C3: one unfolding of the loop, and a run that
returns does so with the flag set. -/
theorem reconnect_loop_shape_and_postcondition_witness :
    (Connection.reconnectAux trAll 2 (Sys.init "ws://h" 5) =
      Connection.reconnectAux trAll 1
        (Connection.connectRun trAll
          (Connection.disconnectRun (Sys.init "ws://h" 5)).sleepDelay).2) ∧
    (⟨⟨"ws://h", 5, some 0, true⟩, 1, 0, 0, 0, 1, 5⟩ : Sys).conn.is_connected
      = true :=
  ⟨(reconnect_loop_shape_and_postcondition trAll 1 (Sys.init "ws://h" 5)).1 rfl,
   (reconnect_loop_shape_and_postcondition trAll 1 (Sys.init "ws://h" 5)).2
     (⟨⟨"ws://h", 5, some 0, true⟩, 1, 0, 0, 0, 1, 5⟩ : Sys) rfl⟩

/-- Claim C4: on a `Connection` whose connected flag is false (in
particular a never-connected one), `send` and `recv` fail immediately
with `ConnectionError("Not connected.")`, perform zero underlying
transport attempts and no implicit connect: the state is returned
entirely unchanged. -/
theorem not_connected_fails_fast
    (tr : Transport) (fuel : Nat) (m : String) (s : Sys)
    (h : s.conn.is_connected = false) :
    Connection.sendRun tr fuel m s =
      some (.error (.connectionError "Not connected."), s) ∧
    Connection.recvRun tr fuel s =
      some (.error (.connectionError "Not connected."), s) := by
  have hg : Connection.notConnectedGuard s.conn = true := by
    simp [Connection.notConnectedGuard, h]
  constructor
  · unfold Connection.sendRun
    rw [if_pos hg]
  · unfold Connection.recvRun
    rw [if_pos hg]

/-- Concrete instance of C4 on a never-connected `Connection`. -/
theorem not_connected_fails_fast_witness :
    Connection.sendRun trAll 1 "Hello" (Sys.init "ws://h" 5) =
      some (.error (.connectionError "Not connected."), Sys.init "ws://h" 5) ∧
    Connection.recvRun trAll 1 (Sys.init "ws://h" 5) =
      some (.error (.connectionError "Not connected."), Sys.init "ws://h" 5) :=
  not_connected_fails_fast trAll 1 "Hello" (Sys.init "ws://h" 5) rfl

/-- Counterexample to claim C5: after `connect()` then `disconnect()` the
state is reachable, has the connected flag false, yet the socket
attribute is not `None` — `disconnect()` closes the socket but never
resets `self.websocket`. -/
theorem disconnected_socket_not_none_counterexample :
    Sys.runOps trAll 1 [Op.connectOp, Op.disconnectOp]
        (Sys.init "ws://example" 5) =
      some (⟨⟨"ws://example", 5, some 0, false⟩, 1, 0, 0, 1, 1, 0⟩ : Sys) ∧
    (⟨⟨"ws://example", 5, some 0, false⟩, 1, 0, 0, 1, 1, 0⟩ :
        Sys).conn.is_connected = false ∧
    (⟨⟨"ws://example", 5, some 0, false⟩, 1, 0, 0, 1, 1, 0⟩ :
        Sys).conn.websocket ≠ none := by
  refine ⟨rfl, rfl, ?_⟩
  simp

/-- Claim C5 as amended: the socket attribute is `None` in the initial
state, but `disconnect()` leaves the socket attribute unchanged (it does
not reset it to `None`), so a disconnected `Connection` that was
previously connected still holds the closed socket object. -/
theorem disconnect_preserves_socket_attribute
    (s : Sys) (uri : String) (d : Nat) :
    (Connection.disconnectRun s).conn.websocket = s.conn.websocket ∧
    (Sys.init uri d).conn.websocket = none := by
  constructor
  · unfold Connection.disconnectRun
    simp only []
    split <;> rfl
  · rfl

/-- Claim C6: on every reachable state the connected flag implies the
socket attribute is present; the invariant is preserved by every
operation (connect, disconnect, send, recv) and by the internal
reconnect procedure. -/
theorem connected_implies_socket_present (tr : Transport) (fuel : Nat) :
    (∀ (uri : String) (d : Nat) (ops : List Op) (s : Sys),
        Sys.runOps tr fuel ops (Sys.init uri d) = some s →
        s.conn.is_connected = true → s.conn.websocket.isSome = true) ∧
    (∀ (o : Op) (s s' : Sys), SocketInv s →
        Sys.stepOp tr fuel o s = some s' → SocketInv s') ∧
    (∀ (fuel2 : Nat) (s s' : Sys), SocketInv s →
        Connection.reconnectAux tr fuel2 s = some s' → SocketInv s') := by
  refine ⟨?_, ?_, ?_⟩
  · intro uri d ops s h
    exact socketInv_runOps tr fuel ops _ s (fun hx => by simp [Sys.init] at hx) h
  · exact socketInv_stepOp tr fuel
  · exact fun fuel2 => socketInv_reconnectAux tr fuel2

/-- Concrete instance of C6: the state reached by one successful connect
satisfies the invariant. -/
theorem connected_implies_socket_present_witness :
    (⟨⟨"ws://h", 5, some 0, true⟩, 1, 0, 0, 0, 0, 0⟩ :
        Sys).conn.websocket.isSome = true :=
  (connected_implies_socket_present trAll 1).1 "ws://h" 5 [Op.connectOp]
    (⟨⟨"ws://h", 5, some 0, true⟩, 1, 0, 0, 0, 0, 0⟩ : Sys) rfl rfl

/-- Claim C7 (implicit): when the post-reconnect retry of `send` or
`recv` fails and the transport error propagates, the `Connection` is left
with the connected flag true and a socket present (the guard of
`send`/`recv` does not fire), so a subsequent `send`/`recv` proceeds to
an underlying transport attempt instead of failing fast. -/
theorem fatal_retry_leaves_connected_flag
    (tr : Transport) (fuel : Nat) (m : String) (s s3 s3' : Sys) (w : Nat)
    (hc : s.conn.is_connected = true)
    (hw : s.conn.websocket = some w)
    (hs1 : tr.sendOk s.sendCalls = false)
    (hrecS : Connection.reconnectAux tr fuel
      { s with conn := { s.conn with is_connected := false },
               sendCalls := s.sendCalls + 1 } = some s3)
    (hs2 : tr.sendOk s3.sendCalls = false)
    (hr1 : tr.recvRes s.recvCalls = none)
    (hrecR : Connection.reconnectAux tr fuel
      { s with conn := { s.conn with is_connected := false },
               recvCalls := s.recvCalls + 1 } = some s3')
    (hr2 : tr.recvRes s3'.recvCalls = none) :
    (Connection.sendRun tr fuel m s =
       some (.error .webSocketException,
             { s3 with sendCalls := s3.sendCalls + 1 }) ∧
     s3.conn.is_connected = true ∧
     Connection.notConnectedGuard s3.conn = false ∧
     (∀ (fuel2 : Nat) (m2 : String) (r : Except Err Unit) (s'' : Sys),
        Connection.sendRun tr fuel2 m2
          { s3 with sendCalls := s3.sendCalls + 1 } = some (r, s'') →
        s3.sendCalls + 1 < s''.sendCalls)) ∧
    (Connection.recvRun tr fuel s =
       some (.error .webSocketException,
             { s3' with recvCalls := s3'.recvCalls + 1 }) ∧
     s3'.conn.is_connected = true ∧
     Connection.notConnectedGuard s3'.conn = false ∧
     (∀ (fuel2 : Nat) (r : Except Err String) (s'' : Sys),
        Connection.recvRun tr fuel2
          { s3' with recvCalls := s3'.recvCalls + 1 } = some (r, s'') →
        s3'.recvCalls + 1 < s''.recvCalls)) := by
  have hconn3 : s3.conn.is_connected = true :=
    reconnectAux_some_connected tr fuel _ s3 hrecS
  have hinv3 : SocketInv s3 :=
    socketInv_reconnectAux tr fuel _ s3 (fun hx => by simp at hx) hrecS
  obtain ⟨w3, hw3⟩ := Option.isSome_iff_exists.mp (hinv3 hconn3)
  have hg3 : Connection.notConnectedGuard s3.conn = false :=
    notConnectedGuard_eq_false s3.conn hconn3 w3 hw3
  have hconn3' : s3'.conn.is_connected = true :=
    reconnectAux_some_connected tr fuel _ s3' hrecR
  have hinv3' : SocketInv s3' :=
    socketInv_reconnectAux tr fuel _ s3' (fun hx => by simp at hx) hrecR
  obtain ⟨w3', hw3'⟩ := Option.isSome_iff_exists.mp (hinv3' hconn3')
  have hg3' : Connection.notConnectedGuard s3'.conn = false :=
    notConnectedGuard_eq_false s3'.conn hconn3' w3' hw3'
  refine ⟨⟨sendRun_retryFail tr fuel m s s3 w hc hw hs1 hrecS hs2,
           hconn3, hg3, ?_⟩,
          ⟨recvRun_retryFail tr fuel s s3' w hc hw hr1 hrecR hr2,
           hconn3', hg3', ?_⟩⟩
  · intro fuel2 m2 r s'' h
    exact sendRun_attempts tr fuel2 m2
      { s3 with sendCalls := s3.sendCalls + 1 } s'' r hg3 h
  · intro fuel2 r s'' h
    exact recvRun_attempts tr fuel2
      { s3' with recvCalls := s3'.recvCalls + 1 } s'' r hg3' h

/-- Concrete instance of C7: after the retry's fatal failure the flag is
still true and the fail-fast guard does not fire. -/
theorem fatal_retry_leaves_connected_flag_witness :
    Connection.sendRun trRetryFail 1 "Hi"
        (⟨⟨"ws://k", 5, some 0, true⟩, 1, 0, 0, 0, 0, 0⟩ : Sys) =
      some (.error .webSocketException,
            (⟨⟨"ws://k", 5, some 1, true⟩, 2, 2, 0, 0, 1, 5⟩ : Sys)) ∧
    (⟨⟨"ws://k", 5, some 1, true⟩, 2, 1, 0, 0, 1, 5⟩ :
        Sys).conn.is_connected = true ∧
    Connection.notConnectedGuard (⟨"ws://k", 5, some 1, true⟩ : Connection)
      = false := by
  have H := fatal_retry_leaves_connected_flag trRetryFail 1 "Hi"
    (⟨⟨"ws://k", 5, some 0, true⟩, 1, 0, 0, 0, 0, 0⟩ : Sys)
    (⟨⟨"ws://k", 5, some 1, true⟩, 2, 1, 0, 0, 1, 5⟩ : Sys)
    (⟨⟨"ws://k", 5, some 1, true⟩, 2, 0, 1, 0, 1, 5⟩ : Sys)
    0 rfl rfl rfl rfl rfl rfl rfl rfl
  exact ⟨H.1.1, H.1.2.1, H.1.2.2.1⟩

/-- Claim C8: when the `MCPClient` scope is successfully entered (entry
runs `connect()`), leaving the scope — by normal completion or by a
propagating exception from the body — runs `disconnect()` exactly once
more, and the body's result (exception included) still reaches the
caller. -/
theorem scope_exit_disconnects_once {α : Type} (tr : Transport)
    (s s1 sb : Sys) (body : Sys → Option (Except Err α × Sys))
    (r : Except Err α)
    (henter : Connection.connectRun tr s = (.ok (), s1))
    (hbody : body s1 = some (r, sb)) :
    MCPClient.withScope tr body s = some (r, Connection.disconnectRun sb) ∧
    (Connection.disconnectRun sb).disconnectCalls = sb.disconnectCalls + 1 := by
  constructor
  · unfold MCPClient.withScope
    rw [henter]
    simp only []
    rw [hbody]
  · exact disconnectRun_calls sb

/-- Concrete instance of C8: a body that raises still reaches the caller
after exactly one disconnect. -/
theorem scope_exit_disconnects_once_witness :
    MCPClient.withScope trAll
        (fun t => some ((Except.error Err.webSocketException :
          Except Err Unit), t))
        (Sys.init "ws://h" 5) =
      some (Except.error Err.webSocketException,
            Connection.disconnectRun
              (⟨⟨"ws://h", 5, some 0, true⟩, 1, 0, 0, 0, 0, 0⟩ : Sys)) ∧
    (Connection.disconnectRun
        (⟨⟨"ws://h", 5, some 0, true⟩, 1, 0, 0, 0, 0, 0⟩ : Sys)).disconnectCalls
      = (⟨⟨"ws://h", 5, some 0, true⟩, 1, 0, 0, 0, 0, 0⟩ :
          Sys).disconnectCalls + 1 :=
  scope_exit_disconnects_once trAll (Sys.init "ws://h" 5)
    (⟨⟨"ws://h", 5, some 0, true⟩, 1, 0, 0, 0, 0, 0⟩ : Sys)
    (⟨⟨"ws://h", 5, some 0, true⟩, 1, 0, 0, 0, 0, 0⟩ : Sys)
    (fun t => some ((Except.error Err.webSocketException : Except Err Unit), t))
    (Except.error Err.webSocketException) rfl rfl

/-- Claim C9: `connect()` on a connected `Connection` returns immediately
with no underlying connect attempt and no state change; starting from a
fresh `Connection` whose first connect succeeds, calling `connect()`
twice in a row performs the underlying transport connect exactly once. -/
theorem connect_idempotent (tr : Transport) (s : Sys)
    (uri : String) (d : Nat)
    (hc : s.conn.is_connected = true)
    (hk : tr.connectOk 0 = true) :
    Connection.connectRun tr s = (.ok (), s) ∧
    Connection.connectRun tr (Connection.connectRun tr (Sys.init uri d)).2 =
      (.ok (), (Connection.connectRun tr (Sys.init uri d)).2) ∧
    (Connection.connectRun tr (Sys.init uri d)).2.connectCalls = 1 := by
  have hfirst : ∀ t : Sys, t.conn.is_connected = true →
      Connection.connectRun tr t = (.ok (), t) := by
    intro t ht
    unfold Connection.connectRun
    rw [if_pos ht]
  refine ⟨hfirst s hc, ?_, ?_⟩
  · apply hfirst
    simp [Connection.connectRun, Sys.init, hk]
  · simp [Connection.connectRun, Sys.init, hk]

/-- Concrete instance of C9. -/
theorem connect_idempotent_witness :
    Connection.connectRun trAll
        (⟨⟨"ws://h", 5, some 0, true⟩, 1, 0, 0, 0, 0, 0⟩ : Sys) =
      (.ok (), (⟨⟨"ws://h", 5, some 0, true⟩, 1, 0, 0, 0, 0, 0⟩ : Sys)) ∧
    Connection.connectRun trAll
        (Connection.connectRun trAll (Sys.init "ws://h" 5)).2 =
      (.ok (), (Connection.connectRun trAll (Sys.init "ws://h" 5)).2) ∧
    (Connection.connectRun trAll (Sys.init "ws://h" 5)).2.connectCalls = 1 :=
  connect_idempotent trAll
    (⟨⟨"ws://h", 5, some 0, true⟩, 1, 0, 0, 0, 0, 0⟩ : Sys)
    "ws://h" 5 rfl rfl

/-- Claim C10: `disconnect()` on an already-disconnected `Connection` is
a no-op: no underlying transport operation (close) is performed and every
attribute of the `Connection` is unchanged; only the invocation counter
of the model moves. -/
theorem disconnect_noop_when_disconnected (s : Sys)
    (h : s.conn.is_connected = false) :
    Connection.disconnectRun s =
      { s with disconnectCalls := s.disconnectCalls + 1 } ∧
    (Connection.disconnectRun s).conn = s.conn ∧
    (Connection.disconnectRun s).closeCalls = s.closeCalls := by
  have he : Connection.disconnectRun s =
      { s with disconnectCalls := s.disconnectCalls + 1 } := by
    unfold Connection.disconnectRun
    simp only []
    rw [if_pos (by simp [h])]
  exact ⟨he, by rw [he], by rw [he]⟩

/-- Concrete instance of C10 on a fresh `Connection`. -/
theorem disconnect_noop_when_disconnected_witness :
    Connection.disconnectRun (Sys.init "ws://h" 5) =
      { Sys.init "ws://h" 5 with
        disconnectCalls := (Sys.init "ws://h" 5).disconnectCalls + 1 } ∧
    (Connection.disconnectRun (Sys.init "ws://h" 5)).conn =
      (Sys.init "ws://h" 5).conn ∧
    (Connection.disconnectRun (Sys.init "ws://h" 5)).closeCalls =
      (Sys.init "ws://h" 5).closeCalls :=
  disconnect_noop_when_disconnected (Sys.init "ws://h" 5) rfl

end McpSdk
